import Mathlib

/-!
Shallow embedding of src/app.py, a Flask service with two routes:
POST /upload (validate emptiness, persist bytes, run YOLO inference,
respond with top detection) and GET /health. External effects (the
filesystem, the clock, the YOLO library) are modelled as explicit
parameters and oracles; the handler control flow is translated
statement by statement from the source.
-/

namespace SkinServer

/-- Flat JSON values: every response body in app.py is a one-level dict
whose values are strings, booleans, numbers or null. -/
inductive JVal where
  | s : String → JVal
  | b : Bool → JVal
  | n : Nat → JVal
  | null : JVal
deriving DecidableEq, Repr

/-- A JSON object body as produced by jsonify, keys in source order. -/
abbrev Json := List (String × JVal)

/-- One YOLO detection box. The source reads only boxes.cls and
boxes.conf; the spatial coordinates are never touched, so they are
omitted from the embedding. Confidence is a score in the unit interval,
modelled as a rational. -/
structure Box where
  cls : Nat
  conf : ℚ
deriving DecidableEq, Repr

/-- The loaded detector, as far as app.py uses it: its class-name table
(model.names, id-indexed). -/
structure Model where
  names : List String
deriving DecidableEq, Repr

/-- The filesystem of the upload directory: (path, contents) pairs in
write order. -/
abbrev FS := List (String × List Nat)

/-- Per-request external world: the strftime timestamp, whether the
file write succeeds, the YOLO call outcome (exception text, or a
possibly-absent boxes collection), and the loaded model. -/
structure World where
  ts : String
  writeOk : Bool
  infer : Except String (Option (List Box))
  model : Model

def UPLOAD_FOLDER : String := "uploads"

/-- Default of os.environ.get for MODEL_PATH in app.py. -/
def MODEL_PATH_default : String := "skin_model.pt"

/-- Default of os.environ.get for MODEL_DEVICE in app.py. -/
def MODEL_DEVICE_default : String := "cpu"

/-- The fallback weights file hard-coded in the startup except block. -/
def FALLBACK_PATH : String := "yolov8n.pt"

/-- filename = f-string image_ ts .jpg in upload(). -/
def mkFilename (ts : String) : String := "image_" ++ ts ++ ".jpg"

/-- filepath = os.path.join(UPLOAD_FOLDER, filename) in upload(). -/
def mkFilepath (ts : String) : String := UPLOAD_FOLDER ++ "/" ++ mkFilename ts

/-- One comparison step of boxes.conf.argmax(): a later box replaces the
current best only when strictly more confident, so the first maximal
box is kept. -/
def bestStep (best x : Box) : Box := if x.conf > best.conf then x else best

/-- The box at index boxes.conf.argmax() of the nonempty list b :: bs:
scan left to right keeping the first strict maximum. -/
def bestOf (b : Box) (bs : List Box) : Box := bs.foldl bestStep b

/-- Round the fraction n / d (with d positive) to the nearest integer,
ties to even: the rounding Python applies when formatting a value with
a fixed number of decimal places. Computed on integers: f is the floor
quotient and r2 twice the remainder, so r2 versus d compares the
fractional part against one half. -/
def roundHalfEvenND (n d : ℤ) : ℤ :=
  let f := Int.ediv n d
  let r2 := 2 * (n - f * d)
  if r2 < d then f
  else if d < r2 then f + 1
  else if f % 2 = 0 then f else f + 1

/-- Round a rational to the nearest integer, ties to even. -/
def roundHalfEven (q : ℚ) : ℤ := roundHalfEvenND q.num (q.den : ℤ)

/-- The f-string conf * 100 :.1f followed by a percent sign, for a
nonnegative score: the value times 100 rendered with exactly one
decimal digit, round half to even. The rounded count of tenths of a
percent is roundHalfEven (conf * 1000), computed on the reduced
numerator and denominator of conf. -/
def fmtPct1 (conf : ℚ) : String :=
  let tenths := roundHalfEvenND (1000 * conf.num) (conf.den : ℤ)
  toString (tenths / 10) ++ "." ++ toString (tenths % 10) ++ "%"

/-- The body of the inference try block in upload(): ask the model for
boxes; no boxes (None or empty) gives the sentinel pair; otherwise take
the first most-confident box, look its class id up in model.names (a
missing id raises KeyError, caught by the same except), and format the
confidence. Returns label and confidence string, or the exception text. -/
def inferStep (w : World) : Except String (String × String) :=
  match w.infer with
  | .error e => .error e
  | .ok none => .ok ("No disease", "0%")
  | .ok (some []) => .ok ("No disease", "0%")
  | .ok (some (b :: bs)) =>
    let best := bestOf b bs
    match w.model.names.get? best.cls with
    | none => .error (toString best.cls)
    | some name => .ok (name, fmtPct1 best.conf)

/-- The /upload handler, translated step by step: emptiness check (400),
timestamped filename, file write (500 on failure, before any inference),
inference try block (500 with error text on exception), success
response (200). Returns the JSON body, the HTTP status and the
filesystem after the request. -/
def upload (imgBytes : List Nat) (w : World) (fs : FS) : Json × Nat × FS :=
  if imgBytes = [] then
    ([("status", JVal.s "error"), ("message", JVal.s "No image data")], 400, fs)
  else
    let filename := mkFilename w.ts
    let filepath := mkFilepath w.ts
    if w.writeOk = false then
      ([("status", JVal.s "error"), ("message", JVal.s "Failed to save image")], 500, fs)
    else
      let fs1 := fs ++ [(filepath, imgBytes)]
      match inferStep w with
      | .error e =>
        ([("status", JVal.s "error"), ("message", JVal.s "Model inference failed"),
          ("error", JVal.s e)], 500, fs1)
      | .ok (label, confStr) =>
        ([("status", JVal.s "success"), ("image", JVal.s filename),
          ("result", JVal.s label), ("confidence", JVal.s confStr)], 200, fs1)

/-- The /health handler: the try body reads the module-level model
(None-ness, names table); any exception in it is caught and reported as
a 500 with an error status. The fault oracle stands for an exception
raised inside the try body. -/
def health (m : Option Model) (fault : Option String) : Json × Nat :=
  match fault with
  | some e => ([("status", JVal.s "error"), ("message", JVal.s e)], 500)
  | none =>
    ([("status", JVal.s (if m.isSome then "ok" else "error")),
      ("model_loaded", JVal.b m.isSome),
      ("classes", match m with | some mdl => JVal.n mdl.names.length | none => JVal.null)],
     200)

/-- Module-level model loading in app.py: try YOLO(path, device); on any
exception try exactly one fallback, YOLO("yolov8n.pt", device cpu); if
that also fails, re-raise (the module never finishes loading). Returns
the outcome together with the list of attempted (path, device) loads. -/
def startupTrace (load : String → String → Except String Model) (path device : String) :
    Except String Model × List (String × String) :=
  match load path device with
  | .ok m => (.ok m, [(path, device)])
  | .error _ => (load FALLBACK_PATH "cpu", [(path, device), (FALLBACK_PATH, "cpu")])

/-- Top-level statements of app.py relevant to route registration, in
the order they execute when the file runs as the main script: the
upload decorator, then app.run (which blocks for the lifetime of the
server), then the health decorator. -/
inductive Stmt where
  | route : String → Stmt
  | runServer : Stmt
deriving DecidableEq, Repr

/-- The main-script execution order of app.py: /upload is registered,
app.run blocks, and only after the server exits would /health be
registered. -/
def mainScriptStmts : List Stmt := [Stmt.route "/upload", Stmt.runServer, Stmt.route "/health"]

/-- The routes registered at the moment the blocking server call starts
serving: all route statements strictly before the first runServer. -/
def routesWhenServing : List Stmt → List String
  | [] => []
  | Stmt.route r :: rest => r :: routesWhenServing rest
  | Stmt.runServer :: _ => []

/-! Helper lemmas shared by the claim theorems. -/

theorem bestOf_cons (b x : Box) (rest : List Box) :
    bestOf b (x :: rest) = bestOf (bestStep b x) rest := rfl

/-- The scanned best box is a maximum of the list and is its first
maximum: the list splits around it with every earlier element strictly
less confident. -/
theorem bestOf_spec (b : Box) (bs : List Box) :
    (∀ x ∈ b :: bs, x.conf ≤ (bestOf b bs).conf) ∧
    ∃ l1 l2, b :: bs = l1 ++ (bestOf b bs) :: l2 ∧
      ∀ x ∈ l1, x.conf < (bestOf b bs).conf := by
  induction bs generalizing b with
  | nil =>
    refine ⟨?_, [], [], by simp [bestOf], by simp⟩
    intro x hx
    rw [List.mem_singleton] at hx
    simp [bestOf, hx]
  | cons x rest ih =>
    rw [bestOf_cons]
    by_cases h : x.conf > b.conf
    · have hstep : bestStep b x = x := by rw [bestStep, if_pos h]
      rw [hstep]
      obtain ⟨hmax, l1, l2, hdec, hlt⟩ := ih x
      have hbm : b.conf < (bestOf x rest).conf :=
        lt_of_lt_of_le h (hmax x (List.mem_cons_self x rest))
      refine ⟨?_, b :: l1, l2, ?_, ?_⟩
      · intro y hy
        rcases List.mem_cons.mp hy with hyb | hytail
        · exact hyb ▸ le_of_lt hbm
        · exact hmax y hytail
      · rw [List.cons_append, ← hdec]
      · intro y hy
        rcases List.mem_cons.mp hy with hyb | hyl1
        · exact hyb ▸ hbm
        · exact hlt y hyl1
    · have hstep : bestStep b x = b := by rw [bestStep, if_neg h]
      rw [hstep]
      obtain ⟨hmax, l1, l2, hdec, hlt⟩ := ih b
      have hxle : x.conf ≤ (bestOf b rest).conf :=
        le_trans (le_of_not_lt h) (hmax b (List.mem_cons_self b rest))
      refine ⟨?_, ?_⟩
      · intro y hy
        rcases List.mem_cons.mp hy with hyb | hy2
        · exact hyb ▸ hmax b (List.mem_cons_self b rest)
        rcases List.mem_cons.mp hy2 with hyx | hytail
        · exact hyx ▸ hxle
        · exact hmax y (List.mem_cons_of_mem b hytail)
      · cases l1 with
        | nil =>
          rw [List.nil_append] at hdec
          have hb : b = bestOf b rest := (List.cons.injEq _ _ _ _).mp hdec |>.1
          exact ⟨[], x :: rest, by rw [List.nil_append, ← hb], by simp⟩
        | cons a l1t =>
          rw [List.cons_append] at hdec
          have ha : a = b := ((List.cons.injEq _ _ _ _).mp hdec).1.symm
          have hrest : rest = l1t ++ (bestOf b rest) :: l2 :=
            ((List.cons.injEq _ _ _ _).mp hdec).2
          have hblt : b.conf < (bestOf b rest).conf := by
            have := hlt a (List.mem_cons_self a l1t)
            rwa [ha] at this
          refine ⟨b :: x :: l1t, l2, ?_, ?_⟩
          · rw [List.cons_append, List.cons_append, ← hrest]
          · intro y hy
            rcases List.mem_cons.mp hy with hyb | hy2
            · exact hyb ▸ hblt
            rcases List.mem_cons.mp hy2 with hyx | hyl1
            · exact hyx ▸ lt_of_le_of_lt (le_of_not_lt h) hblt
            · exact hlt y (List.mem_cons_of_mem a hyl1)

/-- Behaviour of upload after a nonempty body and a successful write:
the file is appended and the inference outcome decides the response. -/
theorem upload_write_ok (img : List Nat) (w : World) (fs : FS)
    (hne : img ≠ []) (hwr : w.writeOk = true) :
    upload img w fs =
      (match inferStep w with
       | .error e =>
         ([("status", JVal.s "error"), ("message", JVal.s "Model inference failed"),
           ("error", JVal.s e)], 500, fs ++ [(mkFilepath w.ts, img)])
       | .ok (label, confStr) =>
         ([("status", JVal.s "success"), ("image", JVal.s (mkFilename w.ts)),
           ("result", JVal.s label), ("confidence", JVal.s confStr)], 200,
          fs ++ [(mkFilepath w.ts, img)])) := by
  unfold upload
  rw [if_neg hne, hwr]
  simp only [Bool.true_eq_false, if_false]

/-- C1 counterexample: the one-byte body 0x00 is not decodable by any
image codec, yet upload (with the write succeeding and the model
raising on the unreadable file, error text as PIL produces) answers
500 with message Model inference failed, not 400 with Invalid image
data, and the byte is persisted in the upload directory: app.py has no
decode-validation step at all. -/
theorem c1_counterexample :
    (upload [0] ⟨"20240101_120000", true, .error "cannot identify image file", ⟨["melanoma"]⟩⟩
        []).2.1 = 500 ∧
    (upload [0] ⟨"20240101_120000", true, .error "cannot identify image file", ⟨["melanoma"]⟩⟩
        []).1 =
      [("status", JVal.s "error"), ("message", JVal.s "Model inference failed"),
       ("error", JVal.s "cannot identify image file")] ∧
    (upload [0] ⟨"20240101_120000", true, .error "cannot identify image file", ⟨["melanoma"]⟩⟩
        []).2.2 = [("uploads/image_20240101_120000.jpg", [0])] :=
  ⟨rfl, rfl, rfl⟩

/-- C1 amended: a nonempty body that does not decode as a valid image
is not rejected with 400 Invalid image data; upload persists the raw
bytes to the upload directory and, when the model then raises on the
saved file, returns 500 with message Model inference failed. -/
theorem c1_no_decode_validation (img : List Nat) (w : World) (fs : FS) (e : String)
    (hne : img ≠ []) (hwr : w.writeOk = true) (herr : w.infer = .error e) :
    (upload img w fs).2.2 = fs ++ [(mkFilepath w.ts, img)] ∧
    (upload img w fs).2.1 = 500 ∧
    (upload img w fs).1 ≠
      [("status", JVal.s "error"), ("message", JVal.s "Invalid image data")] := by
  have hstep : inferStep w = .error e := by rw [inferStep, herr]
  rw [upload_write_ok img w fs hne hwr, hstep]
  refine ⟨rfl, rfl, ?_⟩
  simp

theorem c1_no_decode_validation_witness :
    ([0] ≠ ([] : List Nat)) ∧
    ((upload [0] ⟨"20240102_080000", true, .error "E", ⟨["melanoma"]⟩⟩ []).2.2 =
        [] ++ [(mkFilepath "20240102_080000", [0])] ∧
      (upload [0] ⟨"20240102_080000", true, .error "E", ⟨["melanoma"]⟩⟩ []).2.1 = 500 ∧
      (upload [0] ⟨"20240102_080000", true, .error "E", ⟨["melanoma"]⟩⟩ []).1 ≠
        [("status", JVal.s "error"), ("message", JVal.s "Invalid image data")]) :=
  ⟨by decide,
   c1_no_decode_validation [0] ⟨"20240102_080000", true, .error "E", ⟨["melanoma"]⟩⟩ [] "E"
     (by decide) rfl rfl⟩

/-- C2: an empty request body is answered 400 with status error and
message No image data, the filesystem is unchanged, and the result does
not depend on the write or inference oracles, so no processing beyond
the emptiness check happens. -/
theorem c2_empty_body_rejected (w : World) (fs : FS) :
    upload [] w fs =
      ([("status", JVal.s "error"), ("message", JVal.s "No image data")], 400, fs) := rfl

/-- C3: a nonempty body whose write succeeds and whose inference
returns no boxes (a None collection or an empty one) is answered 200
with result No disease and confidence 0 percent. -/
theorem c3_zero_boxes_no_disease (img : List Nat) (w : World) (fs : FS)
    (hne : img ≠ []) (hwr : w.writeOk = true)
    (hinf : w.infer = .ok none ∨ w.infer = .ok (some [])) :
    (upload img w fs).1 =
      [("status", JVal.s "success"), ("image", JVal.s (mkFilename w.ts)),
       ("result", JVal.s "No disease"), ("confidence", JVal.s "0%")] ∧
    (upload img w fs).2.1 = 200 := by
  have hstep : inferStep w = .ok ("No disease", "0%") := by
    rcases hinf with h | h <;> rw [inferStep, h]
  rw [upload_write_ok img w fs hne hwr, hstep]
  exact ⟨rfl, rfl⟩

/-- C4: with one or more boxes, upload selects the box with the
maximum confidence (the first maximum on ties: the chosen box is a
maximum and everything before it in the list is strictly less
confident), labels the response with the class name at that box's
class id in the model names table, and formats the confidence as the
score times 100 with one decimal place; concretely, boxes
(cls 2, conf 0.62) and (cls 5, conf 0.91) select class 5 with 91.0
percent, a score of 1.0 renders as 100.0 percent and 0.005 renders as
0.5 percent. -/
theorem c4_best_box_selected (img : List Nat) (w : World) (fs : FS)
    (b : Box) (bs : List Box) (name : String)
    (hne : img ≠ []) (hwr : w.writeOk = true)
    (hinf : w.infer = .ok (some (b :: bs)))
    (hname : w.model.names.get? (bestOf b bs).cls = some name) :
    ((upload img w fs).1 =
       [("status", JVal.s "success"), ("image", JVal.s (mkFilename w.ts)),
        ("result", JVal.s name), ("confidence", JVal.s (fmtPct1 (bestOf b bs).conf))] ∧
     (upload img w fs).2.1 = 200) ∧
    (∀ x ∈ b :: bs, x.conf ≤ (bestOf b bs).conf) ∧
    (∃ l1 l2, b :: bs = l1 ++ (bestOf b bs) :: l2 ∧
       ∀ x ∈ l1, x.conf < (bestOf b bs).conf) ∧
    bestOf ⟨2, 62/100⟩ [⟨5, 91/100⟩] = ⟨5, 91/100⟩ ∧
    fmtPct1 (91/100) = "91.0%" ∧ fmtPct1 1 = "100.0%" ∧ fmtPct1 (5/1000) = "0.5%" := by
  have h62 : (62/100 : ℚ) = mkRat 62 100 := by rw [Rat.mkRat_eq_div]; norm_num
  have h91 : (91/100 : ℚ) = mkRat 91 100 := by rw [Rat.mkRat_eq_div]; norm_num
  have h5 : (5/1000 : ℚ) = mkRat 5 1000 := by rw [Rat.mkRat_eq_div]; norm_num
  have hstep : inferStep w = .ok (name, fmtPct1 (bestOf b bs).conf) := by
    rw [inferStep, hinf]
    simp only [hname]
  refine ⟨?_, (bestOf_spec b bs).1, (bestOf_spec b bs).2, ?_, ?_, by decide, ?_⟩
  · rw [upload_write_ok img w fs hne hwr, hstep]
    exact ⟨rfl, rfl⟩
  · rw [h62, h91]; decide
  · rw [h91]; decide
  · rw [h5]; decide

theorem c4_best_box_selected_witness :
    ((["n0", "n1", "n2", "n3", "n4", "melanoma"].get?
        (bestOf ⟨2, mkRat 62 100⟩ [⟨5, mkRat 91 100⟩]).cls) = some "melanoma") ∧
    ((upload [9]
        ⟨"20240104_140000", true, .ok (some [⟨2, mkRat 62 100⟩, ⟨5, mkRat 91 100⟩]),
         ⟨["n0", "n1", "n2", "n3", "n4", "melanoma"]⟩⟩ []).1 =
      [("status", JVal.s "success"), ("image", JVal.s (mkFilename "20240104_140000")),
       ("result", JVal.s "melanoma"),
       ("confidence", JVal.s (fmtPct1 (bestOf ⟨2, mkRat 62 100⟩ [⟨5, mkRat 91 100⟩]).conf))] ∧
     (upload [9]
        ⟨"20240104_140000", true, .ok (some [⟨2, mkRat 62 100⟩, ⟨5, mkRat 91 100⟩]),
         ⟨["n0", "n1", "n2", "n3", "n4", "melanoma"]⟩⟩ []).2.1 = 200) :=
  ⟨by decide,
   (c4_best_box_selected [9]
      ⟨"20240104_140000", true, .ok (some [⟨2, mkRat 62 100⟩, ⟨5, mkRat 91 100⟩]),
       ⟨["n0", "n1", "n2", "n3", "n4", "melanoma"]⟩⟩ []
      ⟨2, mkRat 62 100⟩ [⟨5, mkRat 91 100⟩] "melanoma"
      (by decide) rfl rfl (by decide)).1⟩

/-- C5: for a nonempty body, a successful persist step appends exactly
one file, holding the received bytes unmodified, at the path formed
from the upload folder and the timestamped name image_ts.jpg; a failed
write is answered 500 with message Failed to save image, leaves the
filesystem unchanged, and the result does not depend on the inference
oracle, so inference does not run. -/
theorem c5_persist_raw_bytes (img : List Nat) (w : World) (fs : FS) (hne : img ≠ []) :
    (w.writeOk = true →
      (upload img w fs).2.2 =
        fs ++ [(UPLOAD_FOLDER ++ "/" ++ ("image_" ++ w.ts ++ ".jpg"), img)]) ∧
    (w.writeOk = false →
      upload img w fs =
        ([("status", JVal.s "error"), ("message", JVal.s "Failed to save image")], 500, fs) ∧
      ∀ i, upload img { w with infer := i } fs = upload img w fs) := by
  constructor
  · intro hwr
    rw [upload_write_ok img w fs hne hwr]
    cases hstep : inferStep w with
    | error e => rfl
    | ok p => cases p; rfl
  · intro hwr
    have hu : upload img w fs =
        ([("status", JVal.s "error"), ("message", JVal.s "Failed to save image")], 500, fs) := by
      rw [upload, if_neg hne, hwr]
      rfl
    refine ⟨hu, ?_⟩
    intro i
    have hwr2 : ({ w with infer := i } : World).writeOk = false := hwr
    have hu2 : upload img { w with infer := i } fs =
        ([("status", JVal.s "error"), ("message", JVal.s "Failed to save image")], 500, fs) := by
      rw [upload, if_neg hne, hwr2]
      rfl
    rw [hu, hu2]

theorem c5_persist_raw_bytes_witness :
    ([2] ≠ ([] : List Nat)) ∧
    upload [2] ⟨"20240105_100000", false, .ok none, ⟨[]⟩⟩ [] =
      ([("status", JVal.s "error"), ("message", JVal.s "Failed to save image")], 500, []) :=
  ⟨by decide,
   ((c5_persist_raw_bytes [2] ⟨"20240105_100000", false, .ok none, ⟨[]⟩⟩ []
      (by decide)).2 rfl).1⟩

/-- C6: any exception in the inference try block, including the
KeyError of a class id missing from the names table, is caught and
answered 500 with status error, message Model inference failed, and
the exception text in the error field: no fault propagates out of the
handler. -/
theorem c6_inference_exception_caught (img : List Nat) (w : World) (fs : FS) (e : String)
    (hne : img ≠ []) (hwr : w.writeOk = true) (herr : inferStep w = .error e) :
    (upload img w fs).1 =
      [("status", JVal.s "error"), ("message", JVal.s "Model inference failed"),
       ("error", JVal.s e)] ∧
    (upload img w fs).2.1 = 500 := by
  rw [upload_write_ok img w fs hne hwr, herr]
  exact ⟨rfl, rfl⟩

theorem c6_inference_exception_caught_witness :
    (inferStep ⟨"20240106_110000", true, .error "boom", ⟨["a"]⟩⟩ = .error "boom") ∧
    ((upload [3] ⟨"20240106_110000", true, .error "boom", ⟨["a"]⟩⟩ []).1 =
      [("status", JVal.s "error"), ("message", JVal.s "Model inference failed"),
       ("error", JVal.s "boom")] ∧
     (upload [3] ⟨"20240106_110000", true, .error "boom", ⟨["a"]⟩⟩ []).2.1 = 500) :=
  ⟨rfl,
   c6_inference_exception_caught [3] ⟨"20240106_110000", true, .error "boom", ⟨["a"]⟩⟩ []
     "boom" (by decide) rfl rfl⟩

/-- C7: once startup has succeeded (a model is loaded), health answers
200 with status ok, model_loaded true and the class count of the model
names table; an exception inside the try body is caught and answered
500 with an error status field, so the request never fails with an
unhandled fault. -/
theorem c7_health_report (m : Model) (x : Option Model) (e : String) :
    health (some m) none =
      ([("status", JVal.s "ok"), ("model_loaded", JVal.b true),
        ("classes", JVal.n m.names.length)], 200) ∧
    health x (some e) =
      ([("status", JVal.s "error"), ("message", JVal.s e)], 500) :=
  ⟨rfl, rfl⟩

/-- C8: startup tries the configured load once; on failure it tries
exactly one fallback, the generic weights on the cpu device, and a
success there keeps the service up; if the fallback also fails the
exception propagates and loading never completes. The trace component
lists every attempted (path, device) load. -/
theorem c8_startup_single_fallback (load : String → String → Except String Model)
    (path device : String) :
    (∀ m, load path device = .ok m →
      startupTrace load path device = (.ok m, [(path, device)])) ∧
    (∀ e, load path device = .error e →
      startupTrace load path device =
        (load FALLBACK_PATH "cpu", [(path, device), (FALLBACK_PATH, "cpu")])) ∧
    (∀ e e2, load path device = .error e → load FALLBACK_PATH "cpu" = .error e2 →
      (startupTrace load path device).1 = .error e2) := by
  refine ⟨?_, ?_, ?_⟩
  · intro m h
    rw [startupTrace, h]
  · intro e h
    rw [startupTrace, h]
  · intro e e2 h h2
    rw [startupTrace, h, h2]

/-- A loader that fails on every path, used to exhibit the startup
contract on a concrete run. -/
def failingLoad : String → String → Except String Model :=
  fun p _ => if p = FALLBACK_PATH then .error "fallback load failed" else .error "primary load failed"

theorem c8_startup_single_fallback_witness :
    (failingLoad MODEL_PATH_default MODEL_DEVICE_default = .error "primary load failed") ∧
    (failingLoad FALLBACK_PATH "cpu" = .error "fallback load failed") ∧
    startupTrace failingLoad MODEL_PATH_default MODEL_DEVICE_default =
      (.error "fallback load failed",
       [(MODEL_PATH_default, MODEL_DEVICE_default), (FALLBACK_PATH, "cpu")]) ∧
    (startupTrace failingLoad MODEL_PATH_default MODEL_DEVICE_default).1 =
      .error "fallback load failed" := by
  refine ⟨rfl, rfl, ?_, ?_⟩
  · have h := (c8_startup_single_fallback failingLoad MODEL_PATH_default
      MODEL_DEVICE_default).2.1 "primary load failed" rfl
    rw [h]
    rfl
  · exact (c8_startup_single_fallback failingLoad MODEL_PATH_default MODEL_DEVICE_default).2.2
      "primary load failed" "fallback load failed" rfl rfl

/-- C9: when the inference step fails after a successful persist, the
500 error response is returned but the stored file stays: the
filesystem after the request is the old one plus exactly the new
image, so the operation is not atomic. -/
theorem c9_upload_not_atomic (img : List Nat) (w : World) (fs : FS) (e : String)
    (hne : img ≠ []) (hwr : w.writeOk = true) (herr : inferStep w = .error e) :
    (upload img w fs).2.1 = 500 ∧
    (upload img w fs).2.2 = fs ++ [(mkFilepath w.ts, img)] ∧
    (upload img w fs).2.2 ≠ fs := by
  rw [upload_write_ok img w fs hne hwr, herr]
  refine ⟨rfl, rfl, ?_⟩
  intro hcontra
  have hlen := congrArg List.length hcontra
  simp at hlen

theorem c9_upload_not_atomic_witness :
    (inferStep ⟨"20240109_130000", true, .ok (some [⟨7, 1⟩]), ⟨["only"]⟩⟩ = .error "7") ∧
    ((upload [4] ⟨"20240109_130000", true, .ok (some [⟨7, 1⟩]), ⟨["only"]⟩⟩ []).2.1 = 500 ∧
     (upload [4] ⟨"20240109_130000", true, .ok (some [⟨7, 1⟩]), ⟨["only"]⟩⟩ []).2.2 =
       [] ++ [(mkFilepath "20240109_130000", [4])] ∧
     (upload [4] ⟨"20240109_130000", true, .ok (some [⟨7, 1⟩]), ⟨["only"]⟩⟩ []).2.2 ≠ []) :=
  ⟨rfl,
   c9_upload_not_atomic [4] ⟨"20240109_130000", true, .ok (some [⟨7, 1⟩]), ⟨["only"]⟩⟩ []
     "7" (by decide) rfl rfl⟩

/-- C10: in the main-script execution order of app.py, the health route
decorator sits after the blocking app.run call, so during the whole
time the server serves in that mode the registered routes are exactly
the upload route and the health route is not among them. -/
theorem c10_health_route_unregistered :
    routesWhenServing mainScriptStmts = ["/upload"] ∧
    "/health" ∉ routesWhenServing mainScriptStmts := by decide

theorem c3_zero_boxes_no_disease_witness :
    ([1] ≠ ([] : List Nat)) ∧
    ((upload [1] ⟨"20240103_090000", true, .ok none, ⟨["melanoma"]⟩⟩ []).1 =
        [("status", JVal.s "success"), ("image", JVal.s (mkFilename "20240103_090000")),
         ("result", JVal.s "No disease"), ("confidence", JVal.s "0%")] ∧
      (upload [1] ⟨"20240103_090000", true, .ok none, ⟨["melanoma"]⟩⟩ []).2.1 = 200) :=
  ⟨by decide,
   c3_zero_boxes_no_disease [1] ⟨"20240103_090000", true, .ok none, ⟨["melanoma"]⟩⟩ []
     (by decide) rfl (Or.inl rfl)⟩

end SkinServer
